import Mathlib

/-!
Verification of the device-tracker module (src/pennylane/device_tracker.py).

The module defines a class `DevTracker` holding two accumulator mappings
(`totals`, a defaultdict from metric name to a running numeric sum, and
`history`, a defaultdict from metric name to the ordered list of every value
supplied), a `tracking` flag, and a `reset_on_enter` configuration flag, plus
a subclass `TimingTracker` that injects a derived `time` metric computed from
wall-clock deltas.

Embedding choices:
- Python dicts are association lists preserving insertion order; a write to a
  missing key appends it at the end, a write to a present key updates it in
  place (exactly CPython dict/defaultdict semantics).
- Metric values are `Value`: Python `None`, a number (modelled as an integer:
  the values the code sums; clock readings become integer clock ticks, since
  floating point is not modelled exactly), or a string (a representative
  non-numeric, non-`None` value).
- `update` can raise a `TypeError` (`totals[key] += value` with the
  defaultdict-supplied `int` start `0` and a non-numeric `value`), so it
  returns `Except String`.
- `record` prints; it is embedded as a function returning the printed text
  together with the (unchanged) tracker state.
- Wall-clock reads (`time.time()`) are passed in as an explicit `now`
  argument to the `TimingTracker` operations.
-/

/-- Decidable equality on `Except`, so that runs of the embedded code can be
checked by evaluation. -/
instance [DecidableEq ε] [DecidableEq α] : DecidableEq (Except ε α)
  | .error a, .error b => decidable_of_iff (a = b) (by simp)
  | .error _, .ok _ => .isFalse (by simp)
  | .ok _, .error _ => .isFalse (by simp)
  | .ok a, .ok b => decidable_of_iff (a = b) (by simp)

/-- A Python value supplied as a metric: `None`, a number, or a string
(standing for any non-numeric, non-`None` object). -/
inductive Value where
  | vNone : Value
  | vNum : ℤ → Value
  | vStr : String → Value
deriving DecidableEq, Repr

/-- Write to a Python dict: if `k` is present, update its value in place
(keeping its position); otherwise append `(k, f d)` at the end, where `d` is
the defaultdict default. -/
def updateAssoc (l : List (String × α)) (k : String) (d : α) (f : α → α) :
    List (String × α) :=
  match l with
  | [] => [(k, f d)]
  | (k₁, v) :: t => if k₁ = k then (k₁, f v) :: t else (k₁, v) :: updateAssoc t k d f

/-- Read from a Python dict: the value stored at key `k`, if any. -/
def getA (l : List (String × α)) (k : String) : Option α :=
  match l with
  | [] => none
  | (k₁, v) :: t => if k₁ = k then some v else getA t k

/-- Plain dict assignment `l[k] = v` (overwrite in place or append). -/
def setA (l : List (String × α)) (k : String) (v : α) : List (String × α) :=
  updateAssoc l k v (fun _ => v)

/-- The state of a `DevTracker` object: the two accumulator mappings and the
two boolean flags. (The Python class has exactly these four attributes; in
particular it has no `latest` mapping and no `callback` attribute.) -/
structure DevTracker where
  totals : List (String × ℤ)
  history : List (String × List Value)
  tracking : Bool
  reset_on_enter : Bool
deriving DecidableEq, Repr

/-- `DevTracker.reset`: reassign `totals` and `history` to fresh empty
defaultdicts. The flags are untouched. -/
def DevTracker.reset (s : DevTracker) : DevTracker :=
  { s with totals := [], history := [] }

/-- The state of a device, as far as the tracker touches it: a name, a
capability dictionary, and the `tracker` attribute slot the constructor
writes. -/
structure Device where
  short_name : String
  capabilities : List (String × Bool)
  tracker : Option DevTracker
deriving DecidableEq, Repr

/-- `DevTracker.__init__(dev, reset_on_enter)`: store the flag, call
`reset()`, set `tracking = False`, and, when a device is given, set
`dev.tracker = self`. Returns the new tracker and the (possibly updated)
device. The code performs no capability check on `dev`. -/
def DevTracker.init (dev : Option Device) (reset_on_enter : Bool) :
    DevTracker × Option Device :=
  let t := DevTracker.reset
    { totals := [], history := [], tracking := false, reset_on_enter := reset_on_enter }
  match dev with
  | none => (t, none)
  | some d => (t, some { d with tracker := some t })

/-- `DevTracker.__enter__`: when `reset_on_enter` is set, call `reset()`;
then set `tracking = True` and `return self`. The result is the pair
(new state of `self`, returned handle); in Python both are the same object. -/
def DevTracker.enter (s : DevTracker) : DevTracker × DevTracker :=
  let s₁ := if s.reset_on_enter then DevTracker.reset s else s
  let s₂ := { s₁ with tracking := true }
  (s₂, s₂)

/-- `DevTracker.__exit__(exc_type, exc_value, exc_traceback)`: set
`tracking = False`. The body ends without `return`, so the method returns
`None`, which is falsy: the second component is the suppress-the-exception
flag handed to the `with` statement, always `false`. -/
def DevTracker.exit (s : DevTracker) : DevTracker × Bool :=
  ({ s with tracking := false }, false)

/-- `DevTracker.update(**current)`: for each key/value pair in order, append
the raw value to `history[key]`; then, if the value is not `None`, run
`totals[key] += value`, where a missing `totals[key]` defaults to the int
`0` — so a non-numeric value raises a `TypeError` from `0 + value`. -/
def DevTracker.update (s : DevTracker) (current : List (String × Value)) :
    Except String DevTracker :=
  match current with
  | [] => .ok s
  | (k, v) :: rest =>
    let s₁ : DevTracker :=
      { s with history := updateAssoc s.history k [] (fun l => l ++ [v]) }
    match v with
    | .vNone => DevTracker.update s₁ rest
    | .vNum p =>
      DevTracker.update
        { s₁ with totals := updateAssoc s₁.totals k 0 (fun q => q + p) } rest
    | .vStr _ => .error "TypeError: unsupported operand type for +: int and str"

/-- A sequence of `update` calls, stopping at the first raised error. -/
def DevTracker.updates (s : DevTracker) :
    List (List (String × Value)) → Except String DevTracker
  | [] => .ok s
  | c :: rest =>
    match DevTracker.update s c with
    | .error e => .error e
    | .ok s₁ => DevTracker.updates s₁ rest

/-- How Python's `print(f"{key} = {value}")` renders a numeric total: the
decimal representation of the integer. -/
def renderZ (n : ℤ) : String :=
  toString n

/-- `DevTracker.record`: print `"Totals: "`, then every entry of `totals` in
insertion order as `key = value` followed by a tab, then a newline. The
result is the full printed text together with the unchanged state. -/
def DevTracker.record (s : DevTracker) : String × DevTracker :=
  ("Totals: " ++
     String.join (s.totals.map (fun kv => kv.1 ++ " = " ++ renderZ kv.2 ++ "\t")) ++
     "\n",
   s)

/-- Python's `with` statement over a `DevTracker`: call `__enter__`, bind the
returned handle, run the body (which ends either normally or with an
exception, and leaves the tracker in some state), call `__exit__`, and
re-raise the body's exception unless `__exit__` returned a truthy value. -/
def withStmt (s : DevTracker) (body : DevTracker → Option String × DevTracker) :
    Option String × DevTracker :=
  let p := DevTracker.enter s
  let q := body p.2
  let r := DevTracker.exit q.2
  (if r.2 then none else q.1, r.1)

/-- The state of a `TimingTracker` object: the inherited `DevTracker` state
plus the `_time_last` timestamp. -/
structure TimingTracker where
  base : DevTracker
  time_last : ℤ
deriving DecidableEq, Repr

/-- `TimingTracker.update(**current)`: read the clock (`now`), set
`current["time"] = now - self._time_last` (overwriting any caller-supplied
`time` entry), store `now` into `_time_last`, and delegate the whole mapping
to `DevTracker.update`. -/
def TimingTracker.update (s : TimingTracker) (now : ℤ)
    (current : List (String × Value)) : Except String TimingTracker :=
  let current₁ := setA current "time" (Value.vNum (now - s.time_last))
  let s₁ : TimingTracker := { s with time_last := now }
  (DevTracker.update s₁.base current₁).map (fun b => { s₁ with base := b })

/-- `TimingTracker.reset`: call the base `reset` and set `_time_last` to the
current clock reading. -/
def TimingTracker.reset (s : TimingTracker) (now : ℤ) : TimingTracker :=
  { base := DevTracker.reset s.base, time_last := now }

/-! Helper lemmas about the dict model. -/

/-- Reading back the key just written by `updateAssoc` yields the updated
value (the defaultdict read-modify-write). -/
theorem getA_updateAssoc (l : List (String × α)) (k : String) (d : α) (f : α → α) :
    getA (updateAssoc l k d f) k = some (f ((getA l k).getD d)) := by
  induction l with
  | nil => simp [updateAssoc, getA]
  | cons hd t ih =>
    obtain ⟨k₁, w⟩ := hd
    by_cases hk : k₁ = k
    · simp [updateAssoc, getA, hk]
    · simp [updateAssoc, getA, hk, ih]

/-- Reading back the key just assigned by `setA` yields the assigned value. -/
theorem getA_setA (l : List (String × α)) (k : String) (v : α) :
    getA (setA l k v) k = some v := by
  simp [setA, getA_updateAssoc]

/-- `DevTracker.update` never reads or writes the `tracking` flag: running it
with the flag forced to `b` gives the same result as running it unchanged and
then forcing the flag to `b` afterwards. -/
theorem update_tracking_comm (b : Bool) (m : List (String × Value)) (s : DevTracker) :
    DevTracker.update { s with tracking := b } m =
      (DevTracker.update s m).map (fun t => { t with tracking := b }) := by
  induction m generalizing s with
  | nil => rfl
  | cons kv rest ih =>
    obtain ⟨k, v⟩ := kv
    cases v with
    | vNone =>
      have h := ih { s with
        history := updateAssoc s.history k [] (fun l => l ++ [Value.vNone]) }
      simpa [DevTracker.update] using h
    | vNum p =>
      have h := ih { s with
        totals := updateAssoc s.totals k 0 (fun q => q + p),
        history := updateAssoc s.history k [] (fun l => l ++ [Value.vNum p]) }
      simpa [DevTracker.update] using h
    | vStr e => rfl

/-! Claim theorems. -/

/-- Claim C1. The claim asserts that after updates of key `k` with numeric
values the tracker satisfies `totals[k] = sum`, `history[k] = [v_1..v_n]`
and `latest[k] = v_n`. `DevTracker` has no `latest` attribute at all, so the
`latest` clause fails; this theorem evaluates the code at the failing input,
showing that totals and history behave as claimed while the resulting state
consists of exactly `totals`, `history`, `tracking` and `reset_on_enter`. -/
theorem c1_totals_history_eval :
    DevTracker.updates ⟨[], [], false, true⟩
      [[("a", Value.vNum 1)], [("a", Value.vNum 2)]] =
    .ok ⟨[("a", 3)], [("a", [Value.vNum 1, Value.vNum 2])], false, true⟩ := by
  decide

/-- Claim C2. The scoped session is a two-state machine: `__enter__` calls
`reset()` first exactly when `reset_on_enter` is set, then sets `tracking`
to true and returns the tracker itself; `__exit__` unconditionally sets
`tracking` back to false and returns a falsy value, so under the `with`
statement the body's error (if any) propagates unchanged. -/
theorem c2_scoped_session_state_machine (s : DevTracker)
    (body : DevTracker → Option String × DevTracker) :
    (DevTracker.enter s).2 = (DevTracker.enter s).1 ∧
    (DevTracker.enter s).1.tracking = true ∧
    (DevTracker.enter s).1.totals = (if s.reset_on_enter then [] else s.totals) ∧
    (DevTracker.enter s).1.history = (if s.reset_on_enter then [] else s.history) ∧
    (DevTracker.enter s).1.reset_on_enter = s.reset_on_enter ∧
    (DevTracker.exit s).1.tracking = false ∧
    (DevTracker.exit s).2 = false ∧
    (withStmt s body).2.tracking = false ∧
    (withStmt s body).1 = (body (DevTracker.enter s).2).1 := by
  refine ⟨rfl, ?_, ?_, ?_, ?_, rfl, rfl, rfl, rfl⟩ <;>
    cases h : s.reset_on_enter <;>
      simp [DevTracker.enter, DevTracker.reset, h]

/-- Claim C3. The claim asserts a capability check at construction: a backend
without the tracking capability must be rejected with an error naming it.
`DevTracker.__init__` performs no such check; this theorem evaluates the
constructor on a device with an empty capability dictionary: construction
succeeds and the tracker is installed as `dev.tracker`. -/
theorem c3_init_attaches_without_capability_check :
    DevTracker.init (some ⟨"temp", [], none⟩) true =
      (⟨[], [], false, true⟩,
       some ⟨"temp", [], some ⟨[], [], false, true⟩⟩) := by
  decide

/-- Claim C4. The claim asserts that a tracker constructed with a callback
has `record()` invoke that callback with `totals`, `history` and `latest`.
`DevTracker.__init__` accepts no callback and `record` unconditionally
prints the default textual report; this theorem evaluates `record` on a
sample state, producing the default print output. -/
theorem c4_record_always_prints_default_report :
    (DevTracker.record ⟨[("a", 1)], [("a", [Value.vNum 1])], true, true⟩).1 =
      "Totals: a = 1\t\n" := by
  decide

/-- Claim C5. The claim asserts that `update(a=None)` appends `None` to
`history["a"]`, sets `latest["a"] = None` and leaves `totals["a"]`
unaffected. `DevTracker` has no `latest` attribute, so the `latest` clause
fails; this theorem evaluates the code at the failing input, showing the
history append and the untouched (absent) totals entry. -/
theorem c5_none_update_history_only_eval :
    DevTracker.update ⟨[], [], false, true⟩ [("a", Value.vNone)] =
      .ok ⟨[], [("a", [Value.vNone])], false, true⟩ := by
  decide

/-- Claim C6. With no callback, `record()` emits exactly the prefix
`Totals: ` followed by each totals entry in insertion order as
`name = value` with a trailing tab, terminated by a newline; with
`totals = [a: 1, b: 2]` the text is exactly `Totals: a = 1\tb = 2\t\n`;
`record` leaves the state unchanged and does not fail on an empty state. -/
theorem c6_record_default_report_format (h : List (String × List Value))
    (tr r : Bool) (s : DevTracker) :
    (DevTracker.record ⟨[("a", 1), ("b", 2)], h, tr, r⟩).1 =
      "Totals: a = 1\tb = 2\t\n" ∧
    (DevTracker.record s).2 = s ∧
    (DevTracker.record ⟨[], h, tr, r⟩).1 = "Totals: \n" :=
  ⟨rfl, rfl, rfl⟩

/-- Claim C7. `TimingTracker.update` at clock reading `now` delegates the
full metrics mapping to the base `DevTracker.update` with a `time` entry
set to `now - _time_last` (overwriting any caller-supplied `time` key, as
the `getA` conjunct shows) and stores `now` as the new `_time_last`;
`TimingTracker.reset` resets the base state and sets `_time_last` to the
current clock reading. -/
theorem c7_timing_update_injects_delta (s : TimingTracker) (now : ℤ)
    (cur : List (String × Value)) :
    TimingTracker.update s now cur =
      (DevTracker.update s.base
          (setA cur "time" (Value.vNum (now - s.time_last)))).map
        (fun b => ⟨b, now⟩) ∧
    getA (setA cur "time" (Value.vNum (now - s.time_last))) "time" =
      some (Value.vNum (now - s.time_last)) ∧
    TimingTracker.reset s now = ⟨DevTracker.reset s.base, now⟩ := by
  refine ⟨rfl, ?_, rfl⟩
  exact getA_setA cur "time" _

/-- Claim C9. With `reset_on_enter = false`, entering a session leaves the
accumulated `totals` and `history` unchanged, and an update in the new
session adds to the previously accumulated total for its key; with
`reset_on_enter = true`, re-entering discards the accumulated state. -/
theorem c9_session_persistence (s : DevTracker) (k : String) (v : ℤ) :
    (DevTracker.enter { s with reset_on_enter := false }).1.totals = s.totals ∧
    (DevTracker.enter { s with reset_on_enter := false }).1.history = s.history ∧
    (∃ s₁,
      DevTracker.update (DevTracker.enter { s with reset_on_enter := false }).1
          [(k, Value.vNum v)] = .ok s₁ ∧
        getA s₁.totals k = some ((getA s.totals k).getD 0 + v)) ∧
    (DevTracker.enter { s with reset_on_enter := true }).1.totals = [] ∧
    (DevTracker.enter { s with reset_on_enter := true }).1.history = [] := by
  refine ⟨rfl, rfl, ⟨_, rfl, ?_⟩, rfl, rfl⟩
  simp [DevTracker.enter, getA_updateAssoc]

/-- Claim C10. Neither `update` nor `record` reads the `tracking` flag: for
states differing only in `tracking`, `update` with the same metrics yields
the same accumulator state (the results differ only in that same flag), and
`record` prints the same report — so state mutates and reports are emitted
even while `tracking` is false. -/
theorem c10_update_record_ignore_tracking (s : DevTracker) (b : Bool)
    (m : List (String × Value)) :
    DevTracker.update { s with tracking := b } m =
      (DevTracker.update s m).map (fun t => { t with tracking := b }) ∧
    (DevTracker.record { s with tracking := b }).1 = (DevTracker.record s).1 :=
  ⟨update_tracking_comm b m s, rfl⟩

/-- Claim C8. The claim asserts that a non-`None`, non-numeric value is
stored in history and latest only, with the call succeeding and totals
untouched. In the code, `totals[key] += value` runs for every non-`None`
value, and with the defaultdict int default `0` a string value makes
`0 + value` raise a `TypeError`: this theorem evaluates the code at such an
input and the call fails. -/
theorem c8_nonnumeric_update_raises_eval :
    DevTracker.update ⟨[], [], false, true⟩ [("b", Value.vStr "b")] =
      .error "TypeError: unsupported operand type for +: int and str" := by
  decide
